import Mathlib

/-!
Shallow embedding of the AutoTrader strategy-execution core:
`utils/indicators.py` (detect_crossover, calculate_ema),
`strategies/base_strategy.py` (BaseStrategy state and helpers),
`strategies/ema_options.py` (EMAOptionsStrategy), and
`webhook/server.py` (the webhook request handler).

Prices are modelled as rationals.  pandas Series become `List ℚ`;
the historical DataFrame becomes a list of (timestamp, close) rows.
Python dicts with optional keys become structures with `Option` fields,
and `dict.get(k, d)` becomes `Option.getD`.  Exceptions raised by the
external market-data / broker collaborators are modelled with `Except`.
The module-level `config.TRADING_MODE` global is threaded as an explicit
`mode : String` argument.
-/

namespace AutoTrader

/-- One row of the historical data frame: index timestamp and close price. -/
structure Bar where
  ts : Nat
  close : ℚ
deriving Repr, DecidableEq

/-- Historical data returned by `MarketData.get_historical_data`. -/
abbrev DataFrame := List Bar

/-- pandas `series.iloc[-1]` (used only under a length guard). -/
def ilocLast (series : List ℚ) : ℚ := series.getLastD 0

/-- pandas `series.iloc[-2]` (used only under a length guard). -/
def ilocPrev (series : List ℚ) : ℚ := series.dropLast.getLastD 0

/-- pandas `index[-1]` for the timestamp column. -/
def ilocLastNat (series : List Nat) : Nat := series.getLastD 0

/-- One step of pandas `ewm(span=period, adjust=False).mean()`:
`y_i = alpha * x_i + (1 - alpha) * y_(i-1)`. -/
def emaFrom (alpha : ℚ) (prev : ℚ) : List ℚ → List ℚ
  | [] => []
  | x :: xs =>
    let y := alpha * x + (1 - alpha) * prev
    y :: emaFrom alpha y xs

/-- `calculate_ema` from `utils/indicators.py`: recursive smoothing with
`alpha = 2/(period+1)`; the first output seeds from the first input. -/
def calculate_ema (prices : List ℚ) (period : Nat) : List ℚ :=
  let alpha : ℚ := 2 / (period + 1)
  match prices with
  | [] => []
  | x :: xs => x :: emaFrom alpha x xs

/-- `detect_crossover` from `utils/indicators.py`.  Returns
`(current_signal, crossover_type)` where the crossover type is the literal
pandas-side string (`'bullish_cross'` / `'bearish_cross'`) or `none`. -/
def detect_crossover (fast_series slow_series : List ℚ) : Int × Option String :=
  if fast_series.length < 2 ∨ slow_series.length < 2 then (0, none)
  else
    let fast_current := ilocLast fast_series
    let fast_prev := ilocPrev fast_series
    let slow_current := ilocLast slow_series
    let slow_prev := ilocPrev slow_series
    if fast_prev ≤ slow_prev ∧ fast_current > slow_current then
      (1, some "bullish_cross")
    else if fast_prev ≥ slow_prev ∧ fast_current < slow_current then
      (-1, some "bearish_cross")
    else if fast_current > slow_current then (1, none)
    else if fast_current < slow_current then (-1, none)
    else (0, none)

/-- The signal dict built by `EMAOptionsStrategy.generate_signal`.  Keys that
are absent on some paths (the insufficient-data and error dicts carry only
`action` and `reason`) are `Option` fields. -/
structure SignalDict where
  action : String
  reason : String
  underlying : Option String := none
  current_price : Option ℚ := none
  fast_ema : Option ℚ := none
  slow_ema : Option ℚ := none
  signal_type : Option Int := none
  crossover : Option (Option String) := none
  option_type : Option String := none
  ts : Option Nat := none
deriving Repr, DecidableEq

/-- The `entry_info` dict held in `self.current_position`. -/
structure Position where
  symbol : String
  option_type : String
  entry_price : ℚ
  quantity : ℚ
  entry_time : Option Nat
  stop_loss : ℚ
  target : ℚ
  sig : SignalDict
deriving Repr, DecidableEq

/-- Response envelope of the broker's `place_order` call (opaque to the core). -/
structure OrderResult where
  s : String
  message : String
deriving Repr, DecidableEq

/-- One broker-side net position as returned by `get_positions`. -/
structure BrokerPosition where
  symbol : String
  netQty : Int
deriving Repr, DecidableEq

/-- Response envelope of the broker's `get_positions` call. -/
structure PositionsResponse where
  s : String
  netPositions : List BrokerPosition
deriving Repr, DecidableEq

/-- Entries of the append-only `trade_log` ledger.  Entry/exit records are the
dicts logged by `_execute_entry` / `_execute_exit` (key `'type'`); close
records are the dicts logged by `close_all_positions` (key `'action'`). -/
inductive Trade where
  | entry (mode : String) (pos : Position)
  | exit (mode : String) (symbol : String) (exit_price : ℚ) (exit_time : Option Nat)
      (entry_price : ℚ) (quantity : ℚ) (pnl : ℚ) (pnl_pct : ℚ) (reason : String)
  | close (symbol : String) (quantity : Nat) (result : OrderResult)
deriving Repr, DecidableEq

/-- Mutable state of `EMAOptionsStrategy` (including the `BaseStrategy`
fields).  Config parameters are resolved at construction, so they appear as
plain fields. -/
structure Strategy where
  underlying_symbol : String
  fast_ema_period : Nat
  slow_ema_period : Nat
  position_size : ℚ
  stop_loss_pct : ℚ
  target_pct : ℚ
  is_running : Bool
  current_position : Option Position
  last_signal : Option SignalDict
  positions : List BrokerPosition
  signals : List SignalDict
  trade_log : List Trade
deriving Repr, DecidableEq

/-- `BaseStrategy.add_signal`: appends the signal to history.  (The wall-clock
timestamp stamped into the dict is not modelled.) -/
def add_signal (s : Strategy) (sig : SignalDict) : Strategy :=
  { s with signals := s.signals ++ [sig] }

/-- `BaseStrategy.log_trade`: appends a trade record to the ledger. -/
def log_trade (s : Strategy) (t : Trade) : Strategy :=
  { s with trade_log := s.trade_log ++ [t] }

/-- `BaseStrategy.calculate_stop_loss`. -/
def calculate_stop_loss (entry_price : ℚ) (side : Int) (stop_loss_pct : ℚ) : ℚ :=
  if side = 1 then entry_price * (1 - stop_loss_pct / 100)
  else entry_price * (1 + stop_loss_pct / 100)

/-- `BaseStrategy.calculate_target`. -/
def calculate_target (entry_price : ℚ) (side : Int) (target_pct : ℚ) : ℚ :=
  if side = 1 then entry_price * (1 + target_pct / 100)
  else entry_price * (1 - target_pct / 100)

/-- `EMAOptionsStrategy._should_exit_position`. -/
def should_exit_position (s : Strategy) (current_signal_type : Int) : Bool :=
  match s.current_position with
  | none => false
  | some p =>
    if p.option_type = "CE" ∧ current_signal_type = -1 then true
    else if p.option_type = "PE" ∧ current_signal_type = 1 then true
    else false

/-- `EMAOptionsStrategy.generate_signal`.  The argument `fetched` is the
outcome of `market_data.get_historical_data`: `Except.error e` models an
exception raised inside the `try` block (caught by the handler), `.ok none`
models a `None` return, `.ok (some df)` a data frame.  The third component of
the result counts how many times `detect_crossover` was invoked. -/
def generate_signal (s : Strategy) (fetched : Except String (Option DataFrame)) :
    Strategy × SignalDict × Nat :=
  match fetched with
  | .error e => (s, { action := "HOLD", reason := "Error: " ++ e }, 0)
  | .ok none => (s, { action := "HOLD", reason := "Insufficient data" }, 0)
  | .ok (some df) =>
    if df.length < s.slow_ema_period + 5 then
      (s, { action := "HOLD", reason := "Insufficient data" }, 0)
    else
      let closes := df.map Bar.close
      let fast_ema := calculate_ema closes s.fast_ema_period
      let slow_ema := calculate_ema closes s.slow_ema_period
      let detected := detect_crossover fast_ema slow_ema
      let signal_type := detected.1
      let crossover := detected.2
      let current_price := ilocLast closes
      let base : SignalDict :=
        { action := "", reason := "",
          underlying := some s.underlying_symbol,
          current_price := some current_price,
          fast_ema := some (ilocLast fast_ema),
          slow_ema := some (ilocLast slow_ema),
          signal_type := some signal_type,
          crossover := some crossover,
          ts := some (ilocLastNat (df.map Bar.ts)) }
      let sig : SignalDict :=
        if crossover = some "bullish_cross" then
          { base with action := "BUY_CALL", option_type := some "CE",
                      reason := "Bullish EMA crossover" }
        else if crossover = some "bearish_cross" then
          { base with action := "BUY_PUT", option_type := some "PE",
                      reason := "Bearish EMA crossover" }
        else
          match s.current_position with
          | some _ =>
            if should_exit_position s signal_type then
              { base with action := "EXIT", reason := "Exit signal from opposite trend" }
            else
              { base with action := "HOLD", reason := "Continue holding position" }
          | none => { base with action := "HOLD", reason := "No crossover detected" }
      let s1 := { add_signal s sig with last_signal := some sig }
      (s1, sig, 1)

/-- Result dict of `execute_signal` and its helpers. -/
structure ExecResult where
  status : String
  message : String
deriving Repr, DecidableEq

/-- The `exit_info` trade record logged by `_execute_exit` in paper mode, for
a current position `p` and the driving signal. -/
def exitTradeOf (p : Position) (signal : SignalDict) : Trade :=
  let entry_price := p.entry_price
  let current_price := signal.current_price.getD entry_price
  let quantity := p.quantity
  Trade.exit "PAPER" p.symbol current_price signal.ts entry_price quantity
    ((current_price - entry_price) * quantity)
    (if entry_price ≠ 0 then (current_price - entry_price) / entry_price * 100 else 0)
    signal.reason

/-- `EMAOptionsStrategy._execute_exit`. -/
def execute_exit (mode : String) (s : Strategy) (signal : SignalDict) :
    Strategy × ExecResult :=
  match s.current_position with
  | none => (s, { status := "success", message := "No position to exit" })
  | some p =>
    if mode = "PAPER" then
      ({ log_trade s (exitTradeOf p signal) with current_position := none },
       { status := "success", message := "Paper trade exit executed" })
    else
      (s, { status := "error", message := "Live trading not implemented in demo" })

/-- The `entry_info` dict built by `_execute_entry` from the strategy config
and the driving signal. -/
def entryInfoOf (s : Strategy) (signal : SignalDict) : Position :=
  let option_type := signal.option_type.getD "CE"
  { symbol := s.underlying_symbol ++ "-" ++ option_type,
    option_type := option_type,
    entry_price := signal.current_price.getD 0,
    quantity := s.position_size,
    entry_time := signal.ts,
    stop_loss := calculate_stop_loss (signal.current_price.getD 0) 1 s.stop_loss_pct,
    target := calculate_target (signal.current_price.getD 0) 1 s.target_pct,
    sig := signal }

/-- `EMAOptionsStrategy._execute_entry`: when a position is already open, the
exit helper runs first (its result is discarded by the source), then the new
entry is created. -/
def execute_entry (mode : String) (s : Strategy) (signal : SignalDict) :
    Strategy × ExecResult :=
  let s0 := match s.current_position with
    | some _ => (execute_exit mode s signal).1
    | none => s
  let entry_info := entryInfoOf s0 signal
  if mode = "PAPER" then
    (log_trade { s0 with current_position := some entry_info } (Trade.entry "PAPER" entry_info),
     { status := "success", message := "Paper trade executed" })
  else
    (s0, { status := "error",
           message := "Option symbol construction required for live trading" })

/-- `EMAOptionsStrategy.execute_signal`: dispatch on the signal's action. -/
def execute_signal (mode : String) (s : Strategy) (signal : SignalDict) :
    Strategy × ExecResult :=
  let action := signal.action
  if action = "HOLD" then (s, { status := "success", message := "Holding position" })
  else if action = "BUY_CALL" ∨ action = "BUY_PUT" then execute_entry mode s signal
  else if action = "EXIT" then execute_exit mode s signal
  else (s, { status := "error", message := "Unknown action: " ++ action })

/-- `BaseStrategy.update_positions`: refreshes the broker-side position list;
a non-ok envelope, a falsy response or an exception leaves it unchanged. -/
def update_positions (s : Strategy) (resp : Except String (Option PositionsResponse)) :
    Strategy :=
  match resp with
  | .error _ => s
  | .ok none => s
  | .ok (some r) => if r.s = "ok" then { s with positions := r.netPositions } else s

/-- One loop iteration of `close_all_positions` over a broker position. -/
def closeStep (place_order : String → Int → Nat → String → OrderResult)
    (acc : Strategy × List OrderResult) (position : BrokerPosition) :
    Strategy × List OrderResult :=
  let symbol := position.symbol
  let quantity := position.netQty.natAbs
  let side : Int := if position.netQty > 0 then -1 else 1
  if 0 < quantity then
    let result := place_order symbol side quantity "MARKET"
    (log_trade acc.1 (Trade.close symbol quantity result), acc.2 ++ [result])
  else acc

/-- `BaseStrategy.close_all_positions`: refresh broker positions, then close
every nonzero-quantity one with an opposite-side market order, logging a
CLOSE trade each time.  `place_order` is the external broker call. -/
def close_all_positions (s : Strategy) (resp : Except String (Option PositionsResponse))
    (place_order : String → Int → Nat → String → OrderResult) :
    Strategy × List OrderResult :=
  let s0 := update_positions s resp
  s0.positions.foldl (closeStep place_order) (s0, [])

/-! Concrete sample states used by witnesses and counterexamples. -/

/-- A fresh paper strategy with default config (fast 9, slow 21, sl 2%, tgt 4%). -/
def sampleStrategy : Strategy :=
  { underlying_symbol := "NSE:NIFTY50-INDEX", fast_ema_period := 9, slow_ema_period := 21,
    position_size := 1, stop_loss_pct := 2, target_pct := 4, is_running := true,
    current_position := none, last_signal := none, positions := [], signals := [],
    trade_log := [] }

/-- An open call position entered at 100 with quantity 2. -/
def samplePosition : Position :=
  { symbol := "NSE:NIFTY50-INDEX-CE", option_type := "CE", entry_price := 100,
    quantity := 2, entry_time := none, stop_loss := 98, target := 104,
    sig := { action := "BUY_CALL", reason := "Bullish EMA crossover" } }

/-- The sample strategy with the sample position open. -/
def stratOpen : Strategy := { sampleStrategy with current_position := some samplePosition }

/-- An EXIT signal quoting a current price of 110. -/
def exitSignal110 : SignalDict := { action := "EXIT", reason := "r", current_price := some 110 }

/-- A BUY_CALL signal quoting a current price of 110. -/
def buySignal : SignalDict :=
  { action := "BUY_CALL", reason := "Bullish EMA crossover", current_price := some 110,
    option_type := some "CE" }

/-- A BUY_CALL signal quoting a current price of 100. -/
def buySignal100 : SignalDict :=
  { action := "BUY_CALL", reason := "Bullish EMA crossover", current_price := some 100,
    option_type := some "CE" }

/-- A data frame with 26 bars (enough for slow period 21 + 5). -/
def sampleDF : DataFrame := (List.range 26).map (fun i => { ts := i, close := (i : ℚ) })

/-- A data frame with only 3 bars (insufficient for any sensible slow period). -/
def tinyDF : DataFrame := [{ ts := 0, close := 1 }, { ts := 1, close := 2 }, { ts := 2, close := 3 }]

/-- C5: `detect_crossover` returns `(1, bullish)` iff the fast series was at or
below the slow one at the previous point and strictly above it now; returns
`(-1, bearish)` iff at or above before and strictly below now; otherwise the
crossover kind is `none` and the bias is the sign of `fast[current] -
slow[current]`; with fewer than 2 points in either series it returns
`(0, none)`; and fast `[1,2,3]` against slow `[2,2,2]` yields the bullish
crossover. -/
theorem detect_crossover_spec :
    (∀ fast slow : List ℚ, fast.length < 2 ∨ slow.length < 2 →
      detect_crossover fast slow = (0, none)) ∧
    (∀ fast slow : List ℚ, 2 ≤ fast.length → 2 ≤ slow.length →
      (detect_crossover fast slow = (1, some "bullish_cross") ↔
        ilocPrev fast ≤ ilocPrev slow ∧ ilocLast slow < ilocLast fast) ∧
      (detect_crossover fast slow = (-1, some "bearish_cross") ↔
        ilocPrev slow ≤ ilocPrev fast ∧ ilocLast fast < ilocLast slow) ∧
      (¬(ilocPrev fast ≤ ilocPrev slow ∧ ilocLast slow < ilocLast fast) →
       ¬(ilocPrev slow ≤ ilocPrev fast ∧ ilocLast fast < ilocLast slow) →
        detect_crossover fast slow =
          ((if ilocLast slow < ilocLast fast then 1
            else if ilocLast fast < ilocLast slow then -1 else 0), none))) ∧
    detect_crossover [1, 2, 3] [2, 2, 2] = (1, some "bullish_cross") := by
  refine ⟨?_, ?_, by decide⟩
  · intro fast slow h
    simp only [detect_crossover, if_pos h]
  · intro fast slow hf hs
    have hlen : ¬ (fast.length < 2 ∨ slow.length < 2) := by omega
    simp only [detect_crossover, if_neg hlen]
    refine ⟨⟨fun h => ?_, fun h => ?_⟩, ⟨fun h => ?_, fun h => ?_⟩, fun hnb hnr => ?_⟩
    · split_ifs at h with h1 h2 h3 h4
      · exact h1
      · exact absurd h (by decide)
      · exact absurd h (by decide)
      · exact absurd h (by decide)
      · exact absurd h (by decide)
    · exact if_pos h
    · split_ifs at h with h1 h2 h3 h4
      · exact absurd h (by decide)
      · exact h2
      · exact absurd h (by decide)
      · exact absurd h (by decide)
      · exact absurd h (by decide)
    · have h1 : ¬(ilocPrev fast ≤ ilocPrev slow ∧ ilocLast slow < ilocLast fast) :=
        fun hc => (lt_asymm h.2) hc.2
      rw [if_neg h1, if_pos h]
    · rw [if_neg hnb, if_neg hnr]
      split_ifs with h1 h2 <;> rfl

/-- Witness for C5 at concrete inputs. -/
theorem detect_crossover_spec_witness :
    detect_crossover ([1, 2, 3] : List ℚ) [2, 2, 2] = (1, some "bullish_cross") ∧
    detect_crossover ([1] : List ℚ) [2, 2] = (0, none) :=
  ⟨(detect_crossover_spec.2.1 [1, 2, 3] [2, 2, 2] (by decide) (by decide)).1.mpr (by decide),
   detect_crossover_spec.1 [1] [2, 2] (by decide)⟩

/-- C1 counterexample: an insufficient-data HOLD invocation of
`generate_signal` leaves the signal history unchanged (length 0, not 0 + 1),
so not every invocation appends a Signal. -/
theorem generate_signal_insufficient_skips_history :
    (generate_signal sampleStrategy (Except.ok none)).2.1.action = "HOLD" ∧
    sampleStrategy.signals.length = 0 ∧
    (generate_signal sampleStrategy (Except.ok none)).1.signals.length = 0 ∧
    (generate_signal sampleStrategy (Except.ok none)).1.signals.length ≠
      sampleStrategy.signals.length + 1 := by decide

/-- C1 (amended): an invocation of `generate_signal` that passes the
data-sufficiency check appends exactly one Signal to history whatever the
resulting action (HOLD included); invocations that hit the insufficient-data
or error path append none. -/
theorem generate_signal_history_append :
    (∀ (s : Strategy) (df : DataFrame), s.slow_ema_period + 5 ≤ df.length →
      (generate_signal s (Except.ok (some df))).1.signals.length = s.signals.length + 1) ∧
    (∀ (s : Strategy) (df : DataFrame), df.length < s.slow_ema_period + 5 →
      (generate_signal s (Except.ok (some df))).1.signals = s.signals) ∧
    (∀ s : Strategy, (generate_signal s (Except.ok none)).1.signals = s.signals) ∧
    (∀ (s : Strategy) (e : String), (generate_signal s (Except.error e)).1.signals = s.signals) := by
  refine ⟨?_, ?_, fun s => rfl, fun s e => rfl⟩
  · intro s df h
    have hlt : ¬ df.length < s.slow_ema_period + 5 := not_lt.mpr h
    simp [generate_signal, hlt, add_signal]
  · intro s df h
    simp [generate_signal, h]

/-- Witness for C1 (amended) at concrete inputs. -/
theorem generate_signal_history_append_witness :
    (generate_signal sampleStrategy (Except.ok (some sampleDF))).1.signals.length =
      sampleStrategy.signals.length + 1 ∧
    (generate_signal sampleStrategy (Except.ok (some tinyDF))).1.signals =
      sampleStrategy.signals :=
  ⟨generate_signal_history_append.1 sampleStrategy sampleDF (by decide),
   generate_signal_history_append.2.1 sampleStrategy tinyDF (by decide)⟩

/-- C6 counterexample: on insufficient data the returned reason string is
"Insufficient data" (capital I), not the claimed "insufficient data". -/
theorem insufficient_data_reason_case_example :
    (generate_signal sampleStrategy (Except.ok (some tinyDF))).2.1.action = "HOLD" ∧
    (generate_signal sampleStrategy (Except.ok (some tinyDF))).2.1.reason =
      "Insufficient data" ∧
    (generate_signal sampleStrategy (Except.ok (some tinyDF))).2.1.reason ≠
      "insufficient data" := by decide

/-- C6 (amended): for every price history shorter than `slow_period + 5`
(including an absent history), `generate_signal` returns action HOLD with
reason "Insufficient data", leaves the strategy state unchanged, and never
invokes the crossover detector (invocation count 0); this is a normal return,
not an exception. -/
theorem generate_signal_insufficient_data :
    (∀ s : Strategy, generate_signal s (Except.ok none) =
      (s, { action := "HOLD", reason := "Insufficient data" }, 0)) ∧
    (∀ (s : Strategy) (df : DataFrame), df.length < s.slow_ema_period + 5 →
      generate_signal s (Except.ok (some df)) =
        (s, { action := "HOLD", reason := "Insufficient data" }, 0)) := by
  refine ⟨fun s => rfl, ?_⟩
  intro s df h
  simp [generate_signal, h]

/-- Witness for C6 (amended) at a concrete short history. -/
theorem generate_signal_insufficient_data_witness :
    generate_signal sampleStrategy (Except.ok (some tinyDF)) =
      (sampleStrategy, { action := "HOLD", reason := "Insufficient data" }, 0) :=
  generate_signal_insufficient_data.2 sampleStrategy tinyDF (by decide)

/-- C10: when fetching market data (or anything inside the guarded block)
raises, `generate_signal` still returns normally with action HOLD and a reason
beginning with "Error:", appends no Signal to history and leaves the position
state unchanged. -/
theorem generate_signal_error_path (s : Strategy) (e : String) :
    generate_signal s (Except.error e) =
      (s, { action := "HOLD", reason := "Error: " ++ e }, 0) ∧
    (∃ t, (generate_signal s (Except.error e)).2.1.reason = "Error:" ++ t) ∧
    (generate_signal s (Except.error e)).1.signals = s.signals ∧
    (generate_signal s (Except.error e)).1.current_position = s.current_position :=
  ⟨rfl,
   ⟨" " ++ e, by
      have h : ("Error:" ++ " " : String) = "Error: " := by decide
      simp only [generate_signal]
      rw [← String.append_assoc, h]⟩,
   rfl, rfl⟩

/-- Number of open positions held by the single nullable slot. -/
def openPositionCount (s : Strategy) : Nat := s.current_position.elim 0 (fun _ => 1)

/-- C4: every `execute_signal` step leaves at most one open Position, and an
entry action arriving while a Position is open (paper mode) first performs the
exit of the existing Position — its EXIT trade is appended before the new
ENTRY trade — rather than silently overwriting the slot. -/
theorem entry_while_open_exits_first :
    (∀ (mode : String) (s : Strategy) (signal : SignalDict),
      openPositionCount (execute_signal mode s signal).1 ≤ 1) ∧
    (∀ (s : Strategy) (signal : SignalDict) (p : Position),
      s.current_position = some p →
      (signal.action = "BUY_CALL" ∨ signal.action = "BUY_PUT") →
      (execute_signal "PAPER" s signal).1.trade_log =
        s.trade_log ++ [exitTradeOf p signal, Trade.entry "PAPER" (entryInfoOf s signal)] ∧
      (execute_signal "PAPER" s signal).1.current_position =
        some (entryInfoOf s signal)) := by
  constructor
  · intro mode s signal
    rcases h : (execute_signal mode s signal).1.current_position with _ | p <;>
      simp [openPositionCount, h]
  · intro s signal p h1 h2
    rcases h2 with h2 | h2 <;>
      simp [execute_signal, execute_entry, execute_exit, h1, h2, entryInfoOf, log_trade,
        exitTradeOf]

/-- Witness for C4 at a concrete open position and entry signal. -/
theorem entry_while_open_exits_first_witness :
    (execute_signal "PAPER" stratOpen buySignal).1.trade_log =
      stratOpen.trade_log ++
        [exitTradeOf samplePosition buySignal,
         Trade.entry "PAPER" (entryInfoOf stratOpen buySignal)] ∧
    (execute_signal "PAPER" stratOpen buySignal).1.current_position =
      some (entryInfoOf stratOpen buySignal) :=
  entry_while_open_exits_first.2 stratOpen buySignal samplePosition rfl (Or.inl rfl)

/-- C7: a paper-mode exit of an open Position records a trade whose pnl is
`(exit_price - entry_price) * quantity` and whose pnl_pct is
`(exit_price - entry_price) / entry_price * 100`, guarded to 0 when the entry
price is 0; exiting the 100-entry quantity-2 position at 110 records pnl 20
and pnl_pct 10. -/
theorem execute_exit_pnl :
    (∀ (s : Strategy) (signal : SignalDict) (p : Position),
      s.current_position = some p →
      (execute_exit "PAPER" s signal).1.trade_log = s.trade_log ++
        [Trade.exit "PAPER" p.symbol (signal.current_price.getD p.entry_price) signal.ts
          p.entry_price p.quantity
          ((signal.current_price.getD p.entry_price - p.entry_price) * p.quantity)
          (if p.entry_price ≠ 0 then
            (signal.current_price.getD p.entry_price - p.entry_price) / p.entry_price * 100
           else 0)
          signal.reason]) ∧
    (execute_exit "PAPER" stratOpen exitSignal110).1.trade_log =
      [Trade.exit "PAPER" "NSE:NIFTY50-INDEX-CE" 110 none 100 2 20 10 "r"] := by
  constructor
  · intro s signal p h
    simp [execute_exit, h, exitTradeOf, log_trade]
  · norm_num [execute_exit, stratOpen, sampleStrategy, samplePosition, exitSignal110,
      exitTradeOf, log_trade]

/-- Witness for C7: the general pnl law applied at the 100 → 110 exit. -/
theorem execute_exit_pnl_witness :
    (execute_exit "PAPER" stratOpen exitSignal110).1.trade_log = stratOpen.trade_log ++
      [Trade.exit "PAPER" samplePosition.symbol
        (exitSignal110.current_price.getD samplePosition.entry_price) exitSignal110.ts
        samplePosition.entry_price samplePosition.quantity
        ((exitSignal110.current_price.getD samplePosition.entry_price -
            samplePosition.entry_price) * samplePosition.quantity)
        (if samplePosition.entry_price ≠ 0 then
          (exitSignal110.current_price.getD samplePosition.entry_price -
              samplePosition.entry_price) / samplePosition.entry_price * 100
         else 0)
        exitSignal110.reason] :=
  execute_exit_pnl.1 stratOpen exitSignal110 samplePosition rfl

/-- Helper: the exit path never touches the configuration fields that the
entry computation reads. -/
theorem execute_exit_preserves_config (mode : String) (s : Strategy) (signal : SignalDict) :
    (execute_exit mode s signal).1.underlying_symbol = s.underlying_symbol ∧
    (execute_exit mode s signal).1.position_size = s.position_size ∧
    (execute_exit mode s signal).1.stop_loss_pct = s.stop_loss_pct ∧
    (execute_exit mode s signal).1.target_pct = s.target_pct := by
  rcases h : s.current_position with _ | p
  · simp [execute_exit, h]
  · by_cases hm : mode = "PAPER" <;> simp [execute_exit, h, hm, log_trade]

/-- C8: a paper-mode entry creates a Position whose stop-loss is
`price * (1 - sl_pct / 100)` and whose target is `price * (1 + target_pct / 100)`
with the long-side convention, whatever option type the signal carries; at
price 100 with sl 2% and target 4% this gives exactly 98 and 104. -/
theorem entry_stop_target :
    (∀ (s : Strategy) (signal : SignalDict), ∃ p : Position,
      (execute_entry "PAPER" s signal).1.current_position = some p ∧
      p.stop_loss = signal.current_price.getD 0 * (1 - s.stop_loss_pct / 100) ∧
      p.target = signal.current_price.getD 0 * (1 + s.target_pct / 100) ∧
      p.entry_price = signal.current_price.getD 0 ∧
      p.option_type = signal.option_type.getD "CE") ∧
    (entryInfoOf sampleStrategy buySignal100).stop_loss = 98 ∧
    (entryInfoOf sampleStrategy buySignal100).target = 104 := by
  refine ⟨?_,
    by norm_num [entryInfoOf, sampleStrategy, buySignal100, calculate_stop_loss],
    by norm_num [entryInfoOf, sampleStrategy, buySignal100, calculate_target]⟩
  intro s signal
  rcases h : s.current_position with _ | p
  · refine ⟨entryInfoOf s signal, ?_, ?_, ?_, rfl, rfl⟩
    · simp only [execute_entry, h]
      rfl
    · simp [entryInfoOf, calculate_stop_loss]
    · simp [entryInfoOf, calculate_target]
  · have hcfg := execute_exit_preserves_config "PAPER" s signal
    refine ⟨entryInfoOf (execute_exit "PAPER" s signal).1 signal, ?_, ?_, ?_, rfl, rfl⟩
    · simp only [execute_entry, h]
      rfl
    · simp [entryInfoOf, calculate_stop_loss, hcfg.2.2.1]
    · simp [entryInfoOf, calculate_target, hcfg.2.2.2]

/-- C9: executing an EXIT signal with no open Position is an idempotent no-op:
it returns success, leaves the whole strategy state (Position slot and trade
ledger included) unchanged, and a second identical call succeeds the same
way. -/
theorem exit_no_position_idempotent :
    ∀ (mode : String) (s : Strategy) (signal : SignalDict),
      s.current_position = none → signal.action = "EXIT" →
      execute_signal mode s signal =
        (s, { status := "success", message := "No position to exit" }) ∧
      execute_signal mode (execute_signal mode s signal).1 signal =
        (s, { status := "success", message := "No position to exit" }) := by
  intro mode s signal h1 h2
  have hmain : execute_signal mode s signal =
      (s, { status := "success", message := "No position to exit" }) := by
    simp [execute_signal, h2, execute_exit, h1]
  exact ⟨hmain, by rw [hmain]; exact hmain⟩

/-- Witness for C9: a double EXIT on the flat sample strategy. -/
theorem exit_no_position_idempotent_witness :
    execute_signal "PAPER" sampleStrategy exitSignal110 =
      (sampleStrategy, { status := "success", message := "No position to exit" }) ∧
    execute_signal "PAPER" (execute_signal "PAPER" sampleStrategy exitSignal110).1
        exitSignal110 =
      (sampleStrategy, { status := "success", message := "No position to exit" }) :=
  exit_no_position_idempotent "PAPER" sampleStrategy exitSignal110 rfl rfl

/-- Broker positions with nonzero net quantity (those the close loop acts on). -/
def nonzeroPositions (ps : List BrokerPosition) : List BrokerPosition :=
  ps.filter (fun p => decide (0 < p.netQty.natAbs))

/-- The CLOSE trade record logged for one broker position. -/
def closeTradeOf (place_order : String → Int → Nat → String → OrderResult)
    (p : BrokerPosition) : Trade :=
  Trade.close p.symbol p.netQty.natAbs
    (place_order p.symbol (if p.netQty > 0 then -1 else 1) p.netQty.natAbs "MARKET")

/-- The broker response collected for one closed broker position. -/
def closeResultOf (place_order : String → Int → Nat → String → OrderResult)
    (p : BrokerPosition) : OrderResult :=
  place_order p.symbol (if p.netQty > 0 then -1 else 1) p.netQty.natAbs "MARKET"

/-- Helper: unrolling the close loop. -/
theorem closeStep_foldl (po : String → Int → Nat → String → OrderResult)
    (ps : List BrokerPosition) (st : Strategy) (acc : List OrderResult) :
    ps.foldl (closeStep po) (st, acc) =
      ({ st with trade_log := st.trade_log ++ (nonzeroPositions ps).map (closeTradeOf po) },
       acc ++ (nonzeroPositions ps).map (closeResultOf po)) := by
  induction ps generalizing st acc with
  | nil => simp [nonzeroPositions]
  | cons p ps ih =>
    by_cases h : 0 < p.netQty.natAbs
    · have h' : p.netQty ≠ 0 := Int.natAbs_pos.mp h
      simp only [List.foldl_cons, closeStep, if_pos h]
      rw [ih]
      simp [nonzeroPositions, List.filter_cons, h, h', closeTradeOf, closeResultOf,
        log_trade, List.append_assoc]
    · have h' : p.netQty = 0 := Int.natAbs_eq_zero.mp (Nat.eq_zero_of_not_pos h)
      simp only [List.foldl_cons, closeStep, if_neg h]
      rw [ih]
      simp [nonzeroPositions, List.filter_cons, h, h']

/-- Helper: refreshing the broker position list touches no other field. -/
theorem update_positions_fields (s : Strategy)
    (resp : Except String (Option PositionsResponse)) :
    (update_positions s resp).current_position = s.current_position ∧
    (update_positions s resp).trade_log = s.trade_log := by
  rcases resp with e | o
  · exact ⟨rfl, rfl⟩
  · rcases o with _ | r
    · exact ⟨rfl, rfl⟩
    · by_cases h : r.s = "ok" <;> simp [update_positions, h]

/-- C3 (amended): `close_all_positions` refreshes the broker position list and,
for every broker position with nonzero net quantity, places one opposite-side
market order and appends one CLOSE trade to the ledger; the internal current
Position slot is left unchanged (it is not cleared). -/
theorem close_all_positions_spec (s : Strategy)
    (resp : Except String (Option PositionsResponse))
    (po : String → Int → Nat → String → OrderResult) :
    (close_all_positions s resp po).1.current_position = s.current_position ∧
    (close_all_positions s resp po).1.trade_log = s.trade_log ++
      (nonzeroPositions (update_positions s resp).positions).map (closeTradeOf po) ∧
    (close_all_positions s resp po).2 =
      (nonzeroPositions (update_positions s resp).positions).map (closeResultOf po) := by
  have hu := update_positions_fields s resp
  simp only [close_all_positions, closeStep_foldl]
  exact ⟨hu.1, by rw [hu.2], by simp⟩

/-- A broker envelope reporting one long position of 5 lots. -/
def respExample : Except String (Option PositionsResponse) :=
  Except.ok (some { s := "ok", netPositions := [{ symbol := "NSE:X", netQty := 5 }] })

/-- A broker order stub that accepts every order. -/
def poExample : String → Int → Nat → String → OrderResult :=
  fun _ _ _ _ => { s := "ok", message := "filled" }

/-- C3 counterexample: after `close_all_positions` closes a nonzero broker
position (one CLOSE trade appended), the internal current Position slot still
holds the old Position — the OPEN → FLAT transition does not happen. -/
theorem close_all_keeps_position_slot :
    (close_all_positions stratOpen respExample poExample).1.current_position =
      some samplePosition ∧
    (close_all_positions stratOpen respExample poExample).1.current_position ≠ none ∧
    (close_all_positions stratOpen respExample poExample).1.trade_log.length = 1 := by
  decide

/-! Webhook Command Channel: `webhook/server.py`.  The handler state is the
token, the capped log and whether a trade callback is registered; the request
body is `none` when the posted JSON is absent or falsy, otherwise a dict of
optional fields.  The registered callback is passed explicitly; `Except.error`
models an exception it raises. -/

/-- Parsed JSON body of a webhook POST. -/
structure WebhookData where
  token : Option String := none
  action : Option String := none
  symbol : Option String := none
  quantity : Option ℚ := none
  order_type : Option String := none
  price : Option ℚ := none
deriving Repr, DecidableEq

/-- The dict recorded in `webhook_logs` for an accepted command. -/
structure WebhookLogEntry where
  action : String
  symbol : String
  quantity : ℚ
  order_type : String
  price : ℚ
  data : WebhookData
deriving Repr, DecidableEq

/-- HTTP status code plus the JSON payload's status/message fields. -/
structure HttpResponse where
  code : Nat
  status : String
  message : String
deriving Repr, DecidableEq

/-- Mutable state of `WebhookServer` relevant to request handling. -/
structure WebhookServer where
  token : String
  webhook_logs : List WebhookLogEntry
  has_callback : Bool
deriving Repr, DecidableEq

/-- `WebhookServer._add_log`: append, then keep only the last 1000 entries. -/
def add_log (s : WebhookServer) (e : WebhookLogEntry) : WebhookServer :=
  let logs := s.webhook_logs ++ [e]
  { s with webhook_logs := if logs.length > 1000 then logs.drop (logs.length - 1000) else logs }

/-- The `/webhook` POST handler from `WebhookServer._setup_routes`.  Returns
the new server state, the response, and whether the trade callback was
invoked.  A missing or empty token string is falsy in the source, so it fails
the token check like a mismatched one. -/
def webhook_handler (s : WebhookServer) (body : Option WebhookData)
    (cb : WebhookLogEntry → Except String String) :
    WebhookServer × HttpResponse × Bool :=
  match body with
  | none => (s, { code := 400, status := "error", message := "No data received" }, false)
  | some data =>
    let request_token := data.token.getD ""
    if request_token = "" ∨ request_token ≠ s.token then
      (s, { code := 401, status := "error", message := "Invalid token" }, false)
    else
      let action := (data.action.getD "").toUpper
      let symbol := data.symbol.getD ""
      let quantity := data.quantity.getD 0
      let order_type := (data.order_type.getD "MARKET").toUpper
      let price := data.price.getD 0
      if action = "" ∨ symbol = "" then
        (s, { code := 400, status := "error", message := "Missing required fields" }, false)
      else if ¬ (action = "BUY" ∨ action = "SELL" ∨ action = "EXIT") then
        (s, { code := 400, status := "error", message := "Invalid action" }, false)
      else
        let entry : WebhookLogEntry :=
          { action := action, symbol := symbol, quantity := quantity,
            order_type := order_type, price := price, data := data }
        let s1 := add_log s entry
        if s1.has_callback then
          match cb entry with
          | .ok _ =>
            (s1, { code := 200, status := "success", message := "Trade executed" }, true)
          | .error e =>
            (s1, { code := 500, status := "error",
                   message := "Trade execution failed: " ++ e }, true)
        else
          (s1, { code := 200, status := "success",
                 message := "Webhook received but no callback set" }, false)

/-- C2 (amended): a parsed webhook body whose token is missing, empty or not
equal to the configured secret is answered with HTTP 401 "Invalid token", the
command is NOT recorded in the webhook log (the whole state is unchanged), and
the trade callback is not invoked. -/
theorem webhook_invalid_token (srv : WebhookServer) (data : WebhookData)
    (cb : WebhookLogEntry → Except String String)
    (h : data.token.getD "" = "" ∨ data.token.getD "" ≠ srv.token) :
    webhook_handler srv (some data) cb =
      (srv, { code := 401, status := "error", message := "Invalid token" }, false) := by
  simp only [webhook_handler]
  rw [if_pos h]

/-- A server configured with secret "secret" and an empty log. -/
def srvExample : WebhookServer := { token := "secret", webhook_logs := [], has_callback := true }

/-- A syntactically valid command carrying the wrong token. -/
def wrongTokenData : WebhookData :=
  { token := some "wrong", action := some "buy", symbol := some "NSE:SBIN-EQ",
    quantity := some 1, order_type := some "MARKET", price := some 0 }

/-- A callback stub that always succeeds. -/
def cbExample : WebhookLogEntry → Except String String := fun _ => Except.ok "done"

/-- C2 counterexample: a POST with a wrong token gets HTTP 401 and the callback
is skipped, but the command is NOT recorded: the log stays empty. -/
theorem webhook_wrong_token_not_logged :
    (webhook_handler srvExample (some wrongTokenData) cbExample).2.1.code = 401 ∧
    (webhook_handler srvExample (some wrongTokenData) cbExample).2.2 = false ∧
    (webhook_handler srvExample (some wrongTokenData) cbExample).1.webhook_logs.length = 0 := by
  decide

/-- Witness for C2 (amended) at the concrete wrong-token request. -/
theorem webhook_invalid_token_witness :
    webhook_handler srvExample (some wrongTokenData) cbExample =
      (srvExample, { code := 401, status := "error", message := "Invalid token" }, false) :=
  webhook_invalid_token srvExample wrongTokenData cbExample (Or.inr (by decide))

end AutoTrader
